import Mathlib

/-!
Verification of the SafeRelief authentication core.

This file shallow-embeds the security-relevant parts of the Go backend
(`internal/auth/validator.go`, `internal/auth/handler.go`,
`internal/middleware/auth.go`, `internal/handlers/donation.go`,
`internal/handlers/user.go`) as executable Lean definitions and proves the
specified properties about them.  Go strings are modelled as `List Char`
(rune sequences); `len` on a Go string is modelled as UTF-8 byte length.
External collaborators (bcrypt, TOTP, the user store, the system clock)
enter the model as explicit function and value parameters.
-/

namespace SafeRelief

/-- Model of a Go string as a sequence of runes. -/
abbrev Str := List Char

/-- UTF-8 encoded byte length of a single rune, as Go `len` counts it. -/
def utf8Len (c : Char) : Nat :=
  if c.toNat < 0x80 then 1
  else if c.toNat < 0x800 then 2
  else if c.toNat < 0x10000 then 3
  else 4

/-- Go `len(s)`: the UTF-8 byte length of the string. -/
def goLen (s : Str) : Nat := (s.map utf8Len).sum

/-- Characters accepted by Go `unicode.IsSpace` (the whitespace set used by
`strings.TrimSpace`). -/
def isGoSpace (c : Char) : Bool :=
  let n := c.toNat
  n == 9 || n == 10 || n == 11 || n == 12 || n == 13 || n == 32 ||
  n == 0x85 || n == 0xA0 || n == 0x1680 ||
  (0x2000 ≤ n && n ≤ 0x200A) ||
  n == 0x2028 || n == 0x2029 || n == 0x202F || n == 0x205F || n == 0x3000

/-- Go `strings.TrimSpace`: drop leading and trailing whitespace runes. -/
def trimSpace (s : Str) : Str :=
  ((s.dropWhile isGoSpace).reverse.dropWhile isGoSpace).reverse

/-- `Validator.SanitizeInput` from `internal/auth/validator.go`:
remove null bytes, trim whitespace, then keep only runes `r` with
`r >= 32 || r == '\n' || r == '\t'`.  The three stages are applied in
exactly the source's order. -/
def sanitizeInput (input : Str) : Str :=
  let noNull := input.filter (fun c => c.toNat ≠ 0)
  let trimmed := trimSpace noNull
  trimmed.filter (fun c => 32 ≤ c.toNat || c = '\n' || c = '\t')

/-- Field/message pair returned by the validator, mirroring
`auth.ValidationError`. -/
structure ValidationError where
  field : String
  message : String
deriving DecidableEq, Repr

/-- Substring test, modelling Go `strings.Contains hay pat`. -/
def hasSubstr (pat : Str) : Str → Bool
  | [] => pat.isEmpty
  | c :: t => pat.isPrefixOf (c :: t) || hasSubstr pat t

/-- Lowercase a rune as Go `strings.ToLower` does on the ASCII range
(the validator's pattern tables are all ASCII). -/
def goToLower (c : Char) : Char := c.toLower

/-- Special characters accepted by `ValidatePassword`
(`"!@#$%^&*()_+-=[]{}|;:,.<>?"` in the source). -/
def specialChars : Str := "!@#$%^&*()_+-=[]\x7b\x7d|;:,.<>?".toList

/-- Weak substrings rejected by `ValidatePassword`. -/
def weakPatterns : List Str :=
  ["123456", "password", "qwerty", "abc123", "admin",
   "letmein", "welcome", "monkey", "dragon", "master"].map String.toList

/-- The repeated-character scan of `ValidatePassword`: walk the runes with
`prevChar` (initially the zero rune) and `repeatedCount` (initially 0);
on a repeat increment the counter and report once it reaches 3. -/
def repeatedScan : Str → Char → Nat → Bool
  | [], _, _ => false
  | c :: rest, prev, rc =>
    if c = prev then
      if rc + 1 ≥ 3 then true else repeatedScan rest c (rc + 1)
    else repeatedScan rest c 0

/-- The error emitted by the repeated-character rule. -/
def repeatedCharError : ValidationError :=
  ⟨"password", "Password cannot contain more than 3 consecutive identical characters"⟩

/-- `Validator.ValidatePassword` from `internal/auth/validator.go`.
Character classes use the ASCII tests (the Unicode letter classes of Go
coincide with these on the inputs the properties concern). -/
def validatePassword (password : Str) : List ValidationError :=
  if password = [] then [⟨"password", "Password is required"⟩]
  else
    (if goLen password < 8 then
      [⟨"password", "Password must be at least 8 characters long"⟩] else []) ++
    (if goLen password > 128 then
      [⟨"password", "Password is too long (maximum 128 characters)"⟩] else []) ++
    (if password.any Char.isUpper then [] else
      [⟨"password", "Password must contain at least one uppercase letter"⟩]) ++
    (if password.any Char.isLower then [] else
      [⟨"password", "Password must contain at least one lowercase letter"⟩]) ++
    (if password.any Char.isDigit then [] else
      [⟨"password", "Password must contain at least one digit"⟩]) ++
    (if password.any (fun c => specialChars.contains c) then [] else
      [⟨"password", "Password must contain at least one special character (!@#$%^&*()_+-=[]\x7b\x7d|;:,.<>?)"⟩]) ++
    (if weakPatterns.any (fun p => hasSubstr p (password.map goToLower)) then
      [⟨"password", "Password contains common weak patterns"⟩] else []) ++
    (if repeatedScan password (Char.ofNat 0) 0 then [repeatedCharError] else [])

/-- Character class `[a-zA-Z0-9._%+-]` of the email regex's local part. -/
def isLocalChar (c : Char) : Bool :=
  c.isAlpha || c.isDigit || c = '.' || c = '_' || c = '%' || c = '+' || c = '-'

/-- Character class `[a-zA-Z0-9.-]` of the email regex's domain part. -/
def isDomainChar (c : Char) : Bool :=
  c.isAlpha || c.isDigit || c = '.' || c = '-'

/-- Split a list at the first occurrence of `c`, if any. -/
def splitAtFirst (c : Char) : Str → Option (Str × Str)
  | [] => none
  | x :: t =>
    if x = c then some ([], t)
    else (splitAtFirst c t).map (fun p => (x :: p.1, p.2))

/-- Split a list at the last occurrence of `c`, if any. -/
def splitAtLast (c : Char) : Str → Option (Str × Str)
  | [] => none
  | x :: t =>
    match splitAtLast c t with
    | some (pre, suf) => some (x :: pre, suf)
    | none => if x = c then some ([], t) else none

/-- Matcher for the anchored email regex
`^[a-zA-Z0-9._%+-]+@[a-zA-Z0-9.-]+\.[a-zA-Z]\x7b2,\x7d$` used by
`ValidateEmail`.  A match exists exactly when the string splits at a unique
`@` into a nonempty local part over the local class and a domain that, cut
at its last dot, has a nonempty prefix over the domain class and an
all-letter suffix of length at least 2. -/
def emailRegexMatch (e : Str) : Bool :=
  match splitAtFirst '@' e with
  | none => false
  | some (loc, dom) =>
    !loc.isEmpty && loc.all isLocalChar &&
    (match splitAtLast '.' dom with
     | none => false
     | some (pre, suf) =>
       !pre.isEmpty && pre.all isDomainChar && suf.length ≥ 2 && suf.all Char.isAlpha)

/-- Script-injection substrings rejected by `ValidateEmail`. -/
def emailSuspiciousPatterns : List Str :=
  ["<script", "javascript:", "vbscript:", "onload=", "onerror=", "onclick="].map
    String.toList

/-- `Validator.ValidateEmail` from `internal/auth/validator.go`. -/
def validateEmail (email : Str) : List ValidationError :=
  if email = [] then [⟨"email", "Email is required"⟩]
  else
    let e := trimSpace email
    (if goLen e > 254 then
      [⟨"email", "Email is too long (maximum 254 characters)"⟩] else []) ++
    (if emailRegexMatch e then [] else [⟨"email", "Invalid email format"⟩]) ++
    (if emailSuspiciousPatterns.any (fun p => hasSubstr p (e.map goToLower)) then
      [⟨"email", "Email contains invalid characters"⟩] else [])

/-- A row of the `users` table as the auth handlers read and write it. -/
structure User where
  id : String
  username : String
  email : Str
  passwordHash : String
  mfaSecret : String
  mfaEnabled : Bool
  failedAttempts : Nat
  lockedUntil : Option Nat
deriving DecidableEq, Repr

/-- JSON response bodies the auth endpoints produce: an `error` message, a
`message` field, a `user` object, or the MFA-enrollment payload. -/
inductive Body where
  | err (m : String)
  | msg (m : String)
  | userData (id username : String) (email : Str)
  | mfaInfo (message qrCode secret : String)
deriving DecidableEq, Repr

/-- HTTP response: status code and JSON body. -/
structure Resp where
  status : Nat
  body : Body
deriving DecidableEq, Repr

/-- Audit event types from `internal/auth/audit.go` that the login flow emits. -/
inductive EventType where
  | loginSuccess
  | loginFailed
  | loginMFAFailed
  | accountLocked
  | suspiciousActivity
  | rateLimitExceeded
  | validationFailed
deriving DecidableEq, Repr

/-- An audit record: the event type and the distinguishing detail string
(the `reason` entry of the details map, or the `login_method` tag on
success). -/
structure AuditEntry where
  etype : EventType
  reason : String
deriving DecidableEq, Repr

/-- The result of one `Login` call: the HTTP response, the `users`-table
rows written by the handler, and the audit records it emitted. -/
structure LoginResult where
  resp : Resp
  dbWrites : List User
  audit : List AuditEntry
deriving DecidableEq, Repr

/-- Login request body (`auth.Credentials`). -/
structure Creds where
  email : Str
  password : Str
  mfaCode : Str

/-- The collaborators `Login` consults: the rate limiter verdict for the
client IP, the suspicious-activity verdict, the user store keyed by email,
bcrypt comparison (`verify hash password`), TOTP validation
(`totpOk code secret`), and the current time in seconds. -/
structure LoginEnv where
  rateAllowed : Bool
  suspicious : Bool
  lookup : Str → Option User
  verify : String → Str → Bool
  totpOk : Str → String → Bool
  now : Nat

/-- Whether the account-lock check of `Login` fires:
`lockedUntil` is set and `time.Now()` is strictly before it. -/
def lockActive (u : User) (now : Nat) : Bool :=
  match u.lockedUntil with
  | some t => now < t
  | none => false

/-- `AuthHandler.Login` from `internal/auth/handler.go`, assuming a healthy
database and a well-formed JSON body (the paths the claims speak about).
The branch structure, status codes, body strings, row updates and audit
records follow the source line by line; `15 * 60` seconds is the 15-minute
lock, and a lock is set exactly when the incremented failure count reaches
5. -/
def login (env : LoginEnv) (c : Creds) : LoginResult :=
  if env.rateAllowed = false then
    ⟨⟨429, .err "Too many login attempts"⟩, [],
      [⟨.rateLimitExceeded, "Too many login attempts"⟩]⟩
  else if env.suspicious = true then
    ⟨⟨403, .err "Account temporarily restricted due to suspicious activity"⟩, [],
      [⟨.suspiciousActivity, "Multiple failed attempts detected"⟩]⟩
  else
    let email := sanitizeInput c.email
    let password := sanitizeInput c.password
    let mfaCode := sanitizeInput c.mfaCode
    if validateEmail email ≠ [] then
      ⟨⟨400, .err "Invalid email format"⟩, [], [⟨.validationFailed, "Invalid email format"⟩]⟩
    else
      match env.lookup email with
      | none =>
        ⟨⟨401, .err "Invalid credentials"⟩, [], [⟨.loginFailed, "User not found"⟩]⟩
      | some u =>
        if lockActive u env.now = true then
          ⟨⟨403, .err "Account is temporarily locked"⟩, [],
            [⟨.loginFailed, "Account locked"⟩]⟩
        else if env.verify u.passwordHash password = false then
          let nfa := u.failedAttempts + 1
          let lock := if nfa ≥ 5 then some (env.now + 15 * 60) else none
          ⟨⟨401, .err "Invalid credentials"⟩,
            [{ u with failedAttempts := nfa, lockedUntil := lock }],
            [⟨if lock.isSome then .accountLocked else .loginFailed, "Invalid password"⟩]⟩
        else
          let u' := { u with failedAttempts := 0, lockedUntil := none }
          if u.mfaEnabled = true then
            if mfaCode = [] then
              ⟨⟨401, .msg "MFA required"⟩, [u'],
                [⟨.loginFailed, "MFA code required but not provided"⟩]⟩
            else if env.totpOk mfaCode u.mfaSecret = false then
              ⟨⟨401, .err "Invalid MFA code"⟩, [u'],
                [⟨.loginMFAFailed, "Invalid MFA code"⟩]⟩
            else
              ⟨⟨200, .userData u.id u.username u.email⟩, [u'],
                [⟨.loginSuccess, "password_and_mfa"⟩]⟩
          else
            ⟨⟨200, .userData u.id u.username u.email⟩, [u'],
              [⟨.loginSuccess, "password_only"⟩]⟩

/-- A stored CSRF token: expiry instant and the single-use flag
(`handlers.CSRFToken`). -/
structure CSRFEntry where
  expiresAt : Nat
  used : Bool
deriving DecidableEq, Repr

/-- The token table of `handlers.CSRFProtection`, keyed by token value. -/
abbrev CSRFMap := List (String × CSRFEntry)

/-- Lookup in the token table (Go map indexing). -/
def lookupTok (m : CSRFMap) (t : String) : Option CSRFEntry :=
  match m.find? (fun p => p.1 = t) with
  | some p => some p.2
  | none => none

/-- Remove every binding of `t` (Go `delete`). -/
def eraseTok (m : CSRFMap) (t : String) : CSRFMap :=
  m.filter (fun p => p.1 ≠ t)

/-- Store a binding for `t`, replacing any previous one (Go map assignment). -/
def setTok (m : CSRFMap) (t : String) (e : CSRFEntry) : CSRFMap :=
  (t, e) :: eraseTok m t

/-- `CSRFProtection.ValidateToken` from `internal/handlers/donation.go`:
empty or unknown tokens fail; expired tokens fail and are evicted; already
consumed tokens fail; otherwise the token is marked used and validation
succeeds. -/
def validateToken (t : String) (now : Nat) (m : CSRFMap) : Bool × CSRFMap :=
  if t = "" then (false, m)
  else
    match lookupTok m t with
    | none => (false, m)
    | some e =>
      if e.expiresAt < now then (false, eraseTok m t)
      else if e.used = true then (false, m)
      else (true, setTok m t { e with used := true })

/-- `CSRFProtection.GenerateToken`: store a fresh unused entry expiring
`tokenTTL = 15` minutes from now.  The random token value is a parameter. -/
def generateToken (t : String) (now : Nat) (m : CSRFMap) : CSRFMap :=
  setTok m t ⟨now + 15 * 60, false⟩

/-- `CSRFProtection.cleanupExpiredTokens` (one sweep): drop entries that
are expired or already used. -/
def cleanupTokens (now : Nat) (m : CSRFMap) : CSRFMap :=
  m.filter (fun p => !(decide (p.2.expiresAt < now) || p.2.used))

/-- Operations that touch the CSRF token table. -/
inductive CSRFOp where
  | validate (t : String) (now : Nat)
  | cleanup (now : Nat)
  | generate (t : String) (now : Nat)
deriving DecidableEq, Repr

/-- State effect of one CSRF-table operation. -/
def applyCSRFOp (m : CSRFMap) : CSRFOp → CSRFMap
  | .validate t now => (validateToken t now m).2
  | .cleanup now => cleanupTokens now m
  | .generate t now => generateToken t now m

/-- State effect of a sequence of CSRF-table operations. -/
def applyCSRFOps (m : CSRFMap) (ops : List CSRFOp) : CSRFMap :=
  ops.foldl applyCSRFOp m

/-- Whether an operation stores a fresh entry under token value `t`. -/
def generatesTok (t : String) : CSRFOp → Bool
  | .generate t' _ => t' = t
  | _ => false

/-- One per-key entry of `auth.RateLimiter`: request count and window
start (`requestCount` in the source). -/
structure RLState where
  count : Nat
  startTime : Nat
deriving DecidableEq, Repr

/-- `RateLimiter.Allow` from `internal/auth/handler.go`, restricted to a
single key's entry (per-key behavior is independent in the source; the
entry is `none` when the key is absent from the map).  With a live entry:
reset to `{1, now}` once `now - startTime > window`; deny at
`count ≥ limit` without incrementing; otherwise increment and allow. -/
def rlAllow (limit window now : Nat) : Option RLState → Bool × Option RLState
  | some req =>
    if window < now - req.startTime then (true, some ⟨1, now⟩)
    else if limit ≤ req.count then (false, some req)
    else (true, some ⟨req.count + 1, req.startTime⟩)
  | none => (true, some ⟨1, now⟩)

/-- Iterate `rlAllow` over a list of call times, collecting the verdicts. -/
def rlRun (limit window : Nat) : List Nat → Option RLState → List Bool × Option RLState
  | [], s => ([], s)
  | t :: rest, s =>
    let step := rlAllow limit window t s
    let next := rlRun limit window rest step.2
    (step.1 :: next.1, next.2)

/-- Signing algorithm of a JWT; the handlers sign with HS256 and the
verifiers accept only the HMAC family. -/
inductive Alg where
  | HS256
  | RS256
deriving DecidableEq, Repr

/-- The claim set both token kinds carry: subject and expiry
(`jwt.MapClaims\x7b"sub", "exp"\x7d`). -/
structure Claims where
  sub : String
  exp : Nat
deriving DecidableEq, Repr

/-- A signed token.  The symmetric signature is modelled as the
(payload, key) pair: it verifies under a key exactly when that key signed
that payload (ideal MAC, no forgery and no cross-key collision). -/
structure Token where
  alg : Alg
  claims : Claims
  sig : Claims × String
deriving DecidableEq, Repr

/-- Sign claims with HS256 under `secret` (`jwt.NewWithClaims` +
`SignedString`). -/
def signHS (secret : String) (c : Claims) : Token :=
  ⟨.HS256, c, (c, secret)⟩

/-- `AuthHandler.generateAccessToken`: subject and a 15-minute expiry,
signed with the access secret. -/
def generateAccessToken (jwtSecret userID : String) (now : Nat) : Token :=
  signHS jwtSecret ⟨userID, now + 15 * 60⟩

/-- `AuthHandler.generateRefreshToken`: same claim shape with a 7-day
expiry, signed with the refresh secret. -/
def generateRefreshToken (refreshSecret userID : String) (now : Nat) : Token :=
  signHS refreshSecret ⟨userID, now + 7 * 24 * 60 * 60⟩

/-- `jwt.Parse` with an HMAC-only keyfunc, as both `AuthMiddleware.
Authenticate` and `RefreshToken` use it: reject non-HMAC algorithms,
reject bad signatures, reject expired tokens, else return the claims. -/
def jwtParseHMAC (secret : String) (now : Nat) (tok : Token) : Option Claims :=
  if tok.alg ≠ .HS256 then none
  else if tok.sig ≠ (tok.claims, secret) then none
  else if tok.claims.exp ≤ now then none
  else some tok.claims

/-- `AuthMiddleware.Authenticate` from `internal/middleware/auth.go`:
parse the access-token cookie against the access secret and expose the
`sub` claim as the request principal. -/
def authenticate (jwtSecret : String) (now : Nat) (tok : Token) : Option String :=
  (jwtParseHMAC jwtSecret now tok).map Claims.sub

/-- `UserHandler.EnableMFA` from `internal/handlers/user.go`: store the
freshly generated secret, set `mfa_enabled = true`, and return the secret
and its provisioning URL.  The handler reads no password and no MFA code —
the model accordingly takes neither. -/
def enableMFA (u : User) (freshSecret qrUrl : String) : Resp × User :=
  (⟨200, .mfaInfo "MFA enabled successfully" qrUrl freshSecret⟩,
   { u with mfaSecret := freshSecret, mfaEnabled := true })

/-- `UserHandler.DisableMFA`: verify the password, then the TOTP code,
and only then clear the secret and the flag. -/
def disableMFA (u : User) (password mfaCode : Str)
    (verify : String → Str → Bool) (totpOk : Str → String → Bool) : Resp × User :=
  if verify u.passwordHash password = false then (⟨401, .err "Invalid password"⟩, u)
  else if totpOk mfaCode u.mfaSecret = false then (⟨401, .err "Invalid MFA code"⟩, u)
  else (⟨200, .msg "MFA disabled successfully"⟩,
    { u with mfaSecret := "", mfaEnabled := false })

/-- `AuthHandler.ChangePassword` from `internal/auth/handler.go`, modelled
for its effect on the user row: it can only ever write `password_hash`
(the bcrypt hash of the new password is the `newHash` parameter). -/
def changePassword (u : User) (current newPw mfaCode : Str)
    (verify : String → Str → Bool) (totpOk : Str → String → Bool)
    (newHash : String) : Resp × User :=
  let cur := sanitizeInput current
  let np := sanitizeInput newPw
  let code := sanitizeInput mfaCode
  if validatePassword np ≠ [] then (⟨400, .err "New password validation failed"⟩, u)
  else if verify u.passwordHash cur = false then
    (⟨401, .err "Current password is incorrect"⟩, u)
  else if verify u.passwordHash np = true then
    (⟨400, .err "New password must be different from current password"⟩, u)
  else if u.mfaEnabled = true ∧ code = [] then
    (⟨401, .err "MFA code required for password change"⟩, u)
  else if u.mfaEnabled = true ∧ totpOk code u.mfaSecret = false then
    (⟨401, .err "Invalid MFA code"⟩, u)
  else (⟨200, .msg "Password changed successfully"⟩, { u with passwordHash := newHash })

/-- A token value is spent in a table: every entry stored under it is
marked used (absence also counts as spent). -/
def tokenConsumed (m : CSRFMap) (t : String) : Prop :=
  ∀ e : CSRFEntry, (t, e) ∈ m → e.used = true

/-- Sample principal: no MFA, three failed attempts, not locked. -/
def sampleUser : User :=
  ⟨"u1", "alice", "a@x.co".toList, "HASH", "SECRET", false, 3, none⟩

/-- Sample login environment around `sampleUser`; the stored bcrypt hash
matches exactly the password `Str0ng`. -/
def sampleEnv : LoginEnv :=
  ⟨true, false,
   fun e => if e = "a@x.co".toList then some sampleUser else none,
   fun h p => h = "HASH" && p = "Str0ng".toList,
   fun c s => c = "123456".toList && s = "SECRET", 50⟩

/-- Sample principal currently locked until time 100. -/
def lockedUser : User :=
  ⟨"u2", "bob", "b@x.co".toList, "HASH", "SECRET", false, 1, some 100⟩

/-- Environment at time 50 whose store holds `lockedUser`. -/
def lockEnv : LoginEnv :=
  ⟨true, false,
   fun e => if e = "b@x.co".toList then some lockedUser else none,
   fun _ _ => false, fun _ _ => false, 50⟩

/-- Sample principal with MFA enabled. -/
def mfaUser : User :=
  ⟨"u3", "carol", "c@x.co".toList, "HASH", "SECRET", true, 0, none⟩

/-- Environment whose store holds `mfaUser`; every password passes, only
the code `123456` passes TOTP against the stored secret. -/
def mfaEnv : LoginEnv :=
  ⟨true, false,
   fun e => if e = "c@x.co".toList then some mfaUser else none,
   fun h _ => h = "HASH",
   fun c s => c = "123456".toList && s = "SECRET", 50⟩

/-- Sample request: `sampleUser`'s email with the correct password. -/
def sampleCreds : Creds := ⟨"a@x.co".toList, "Str0ng".toList, []⟩

/-- Sample request: `sampleUser`'s email with a wrong password. -/
def wrongCreds : Creds := ⟨"a@x.co".toList, "wrong".toList, []⟩

/-- Sample request: an email matching no stored principal. -/
def enumCreds : Creds := ⟨"nobody@x.co".toList, "pw".toList, []⟩

/-- Sample request against the locked principal. -/
def lockCreds : Creds := ⟨"b@x.co".toList, "pw".toList, []⟩

/-- Sample request against the MFA-enabled principal, with no MFA code. -/
def mfaCreds : Creds := ⟨"c@x.co".toList, "whatever".toList, []⟩

/-- The repeated-character scan fires on three identical runes following a
matching previous rune, whatever the running count. -/
theorem repeatedScan_three (l : Str) (c : Char) (rc : Nat) :
    repeatedScan (c :: c :: c :: l) c rc = true := by
  simp only [repeatedScan, if_pos]
  split_ifs <;> first | rfl | omega

/-- The repeated-character scan fires on any four identical consecutive
runes, regardless of the previous rune and running count. -/
theorem repeatedScan_four (l : Str) (c prev : Char) (rc : Nat) :
    repeatedScan (c :: c :: c :: c :: l) prev rc = true := by
  show repeatedScan (c :: (c :: c :: c :: l)) prev rc = true
  by_cases h : c = prev
  · subst h
    simp only [repeatedScan, if_pos]
    split_ifs <;> first | rfl | omega
  · have hstep : repeatedScan (c :: c :: c :: c :: l) prev rc =
        repeatedScan (c :: c :: c :: l) c 0 := by
      simp only [repeatedScan, if_neg h]
    rw [hstep]
    exact repeatedScan_three l c 0

/-- The repeated-character scan fires whenever a run of four identical
consecutive runes occurs anywhere in the input. -/
theorem repeatedScan_append (l1 l2 : Str) (c : Char) :
    ∀ (prev : Char) (rc : Nat),
      repeatedScan (l1 ++ c :: c :: c :: c :: l2) prev rc = true := by
  induction l1 with
  | nil => intro prev rc; exact repeatedScan_four l2 c prev rc
  | cons a t ih =>
    intro prev rc
    show repeatedScan (a :: (t ++ c :: c :: c :: c :: l2)) prev rc = true
    by_cases h : a = prev
    · subst h
      have hstep : repeatedScan (a :: (t ++ c :: c :: c :: c :: l2)) a rc =
          if rc + 1 ≥ 3 then true
          else repeatedScan (t ++ c :: c :: c :: c :: l2) a (rc + 1) := by
        simp [repeatedScan]
      rw [hstep]
      split_ifs
      · rfl
      · exact ih a (rc + 1)
    · have hstep : repeatedScan (a :: (t ++ c :: c :: c :: c :: l2)) prev rc =
          repeatedScan (t ++ c :: c :: c :: c :: l2) a 0 := by
        simp [repeatedScan, if_neg h]
      rw [hstep]
      exact ih a 0

/-- C8 (corrected): `ValidatePassword` flags the repeated-character rule
for every password containing a run of FOUR or more identical consecutive
characters — matching its own error message "more than 3 consecutive
identical characters" — not for runs of exactly three. -/
theorem validatePassword_flags_run_of_four (pw l1 l2 : Str) (c : Char)
    (h : pw = l1 ++ c :: c :: c :: c :: l2) :
    repeatedCharError ∈ validatePassword pw := by
  subst h
  have hne : l1 ++ c :: c :: c :: c :: l2 ≠ [] := by
    intro hcontra; cases l1 <;> simp_all
  have hscan := repeatedScan_append l1 l2 c (Char.ofNat 0) 0
  unfold validatePassword
  rw [if_neg hne]
  simp [hscan, repeatedCharError]

/-- C8 witness: the run-of-four theorem applied at `bbbb`. -/
theorem validatePassword_flags_run_of_four_witness :
    (['b', 'b', 'b', 'b'] : Str) = [] ++ 'b' :: 'b' :: 'b' :: 'b' :: [] ∧
    repeatedCharError ∈ validatePassword ['b', 'b', 'b', 'b'] :=
  ⟨by decide, validatePassword_flags_run_of_four _ [] [] 'b' (by decide)⟩

/-- C8 counterexample: `aaa` is a run of three identical consecutive
characters, yet `ValidatePassword` raises no repeated-character error for
it, refuting the claim that runs of three or more are rejected. -/
theorem validatePassword_run_three_counterexample :
    (['a', 'a', 'a'] : Str) = [] ++ 'a' :: 'a' :: 'a' :: [] ∧
    repeatedCharError ∉ validatePassword ['a', 'a', 'a'] :=
  ⟨by decide, by decide⟩

/-- C9 (corrected): every rune surviving `SanitizeInput` is either
printable (code point at least 32) or a newline or tab; in particular no
null byte survives.  The original claim fails on whitespace exposure and
on DEL and C1 controls, which the `r >= 32` filter keeps. -/
theorem sanitizeInput_no_low_controls (input : Str) (c : Char)
    (h : c ∈ sanitizeInput input) :
    (32 ≤ c.toNat ∨ c = '\n' ∨ c = '\t') ∧ c.toNat ≠ 0 := by
  unfold sanitizeInput at h
  simp only [List.mem_filter] at h
  have h2 := h.2
  simp only [Bool.or_eq_true, decide_eq_true_eq] at h2
  refine ⟨by tauto, ?_⟩
  rcases h2 with (h3 | h3) | h3
  · omega
  · subst h3; decide
  · subst h3; decide

/-- C9 witness: the control-character guarantee applied to the
single-rune input `a`. -/
theorem sanitizeInput_no_low_controls_witness :
    'a' ∈ sanitizeInput ['a'] ∧
    ((32 ≤ 'a'.toNat ∨ 'a' = '\n' ∨ 'a' = '\t') ∧ 'a'.toNat ≠ 0) :=
  ⟨by decide, sanitizeInput_no_low_controls ['a'] 'a' (by decide)⟩

/-- C9 counterexample: on input `\x01 \x7f` the sanitized result starts
with a space (the trim runs before control-character removal and the
removal re-exposes the whitespace) and still contains DEL, a
non-printable control character that is neither newline nor tab. -/
theorem sanitizeInput_counterexample :
    (sanitizeInput [Char.ofNat 1, ' ', Char.ofNat 127]).head? = some ' ' ∧
    isGoSpace ' ' = true ∧
    Char.ofNat 127 ∈ sanitizeInput [Char.ofNat 1, ' ', Char.ofNat 127] ∧
    Char.ofNat 127 ≠ '\n' ∧ Char.ofNat 127 ≠ '\t' := by decide

/-- C1: a failed password verification during `Login` writes
`failedAttempts + 1`, and sets `lockedUntil = now + 15` minutes exactly
when the incremented count reaches 5; while `lockedUntil` is set and in
the future, `Login` answers 403 with the account-locked message, writes
nothing, and its outcome does not depend on the password verifier at all
(the lock check precedes the password check). -/
theorem login_lockout_policy (env : LoginEnv) (c : Creds) (u : User)
    (hrate : env.rateAllowed = true) (hsusp : env.suspicious = false)
    (hemail : validateEmail (sanitizeInput c.email) = [])
    (hlook : env.lookup (sanitizeInput c.email) = some u) :
    (lockActive u env.now = false →
      env.verify u.passwordHash (sanitizeInput c.password) = false →
      (login env c).dbWrites = [{ u with
         failedAttempts := u.failedAttempts + 1
         lockedUntil := if u.failedAttempts + 1 ≥ 5 then some (env.now + 15 * 60) else none }]
      ∧ (login env c).resp = ⟨401, .err "Invalid credentials"⟩)
    ∧ (∀ t, u.lockedUntil = some t → env.now < t →
      (login env c).resp = ⟨403, .err "Account is temporarily locked"⟩
      ∧ (login env c).dbWrites = []
      ∧ ∀ verify2, login { env with verify := verify2 } c = login env c) := by
  constructor
  · intro hlock hverify
    simp [login, hrate, hsusp, hemail, hlook, hlock, hverify]
  · intro t ht hlt
    have hla : lockActive u env.now = true := by simp [lockActive, ht, hlt]
    refine ⟨?_, ?_, ?_⟩
    · simp [login, hrate, hsusp, hemail, hlook, hla]
    · simp [login, hrate, hsusp, hemail, hlook, hla]
    · intro verify2
      simp [login, hrate, hsusp, hemail, hlook, hla]

/-- C1 witness: the lockout policy applied to a principal locked until
time 100, attempted at time 50. -/
theorem login_lockout_policy_witness :
    lockEnv.rateAllowed = true ∧ lockEnv.suspicious = false
    ∧ validateEmail (sanitizeInput lockCreds.email) = []
    ∧ lockEnv.lookup (sanitizeInput lockCreds.email) = some lockedUser
    ∧ ((lockActive lockedUser lockEnv.now = false →
        lockEnv.verify lockedUser.passwordHash (sanitizeInput lockCreds.password) = false →
        (login lockEnv lockCreds).dbWrites = [{ lockedUser with
           failedAttempts := lockedUser.failedAttempts + 1
           lockedUntil := if lockedUser.failedAttempts + 1 ≥ 5
             then some (lockEnv.now + 15 * 60) else none }]
        ∧ (login lockEnv lockCreds).resp = ⟨401, .err "Invalid credentials"⟩)
      ∧ (∀ t, lockedUser.lockedUntil = some t → lockEnv.now < t →
        (login lockEnv lockCreds).resp = ⟨403, .err "Account is temporarily locked"⟩
        ∧ (login lockEnv lockCreds).dbWrites = []
        ∧ ∀ verify2, login { lockEnv with verify := verify2 } lockCreds = login lockEnv lockCreds)) :=
  ⟨by decide, by decide, by decide, by decide,
   login_lockout_policy lockEnv lockCreds lockedUser
     (by decide) (by decide) (by decide) (by decide)⟩

/-- C2: a successful password verification during `Login` writes exactly
the row with `failedAttempts = 0` and `lockedUntil` cleared, whatever the
MFA branch then does; and across the operations of this core, a row with
`failedAttempts = 0` is written by `Login` only on a verified password
match, while `EnableMFA`, `DisableMFA` and `ChangePassword` never change
`failedAttempts` at all. -/
theorem login_failed_attempts_reset (env : LoginEnv) (c : Creds) (u : User)
    (hrate : env.rateAllowed = true) (hsusp : env.suspicious = false)
    (hemail : validateEmail (sanitizeInput c.email) = [])
    (hlook : env.lookup (sanitizeInput c.email) = some u)
    (hlock : lockActive u env.now = false)
    (hverify : env.verify u.passwordHash (sanitizeInput c.password) = true) :
    (login env c).dbWrites = [{ u with failedAttempts := 0, lockedUntil := none }]
    ∧ (∀ (env2 : LoginEnv) (c2 : Creds) (w : User),
        w ∈ (login env2 c2).dbWrites → w.failedAttempts = 0 →
        ∃ u2, env2.lookup (sanitizeInput c2.email) = some u2 ∧
          env2.verify u2.passwordHash (sanitizeInput c2.password) = true)
    ∧ (∀ (u2 : User) (s url : String),
        ((enableMFA u2 s url).2).failedAttempts = u2.failedAttempts)
    ∧ (∀ (u2 : User) (pw code : Str) (vf : String → Str → Bool)
        (totp : Str → String → Bool),
        ((disableMFA u2 pw code vf totp).2).failedAttempts = u2.failedAttempts)
    ∧ (∀ (u2 : User) (cur np code : Str) (vf : String → Str → Bool)
        (totp : Str → String → Bool) (nh : String),
        ((changePassword u2 cur np code vf totp nh).2).failedAttempts = u2.failedAttempts) := by
  refine ⟨?_, ?_, ?_, ?_, ?_⟩
  · by_cases hmfa : u.mfaEnabled = true
    · by_cases hcode : sanitizeInput c.mfaCode = []
      · simp [login, hrate, hsusp, hemail, hlook, hlock, hverify, hmfa, hcode]
      · by_cases htotp : env.totpOk (sanitizeInput c.mfaCode) u.mfaSecret = true
        · simp [login, hrate, hsusp, hemail, hlook, hlock, hverify, hmfa, hcode, htotp]
        · simp only [Bool.not_eq_true] at htotp
          simp [login, hrate, hsusp, hemail, hlook, hlock, hverify, hmfa, hcode, htotp]
    · simp only [Bool.not_eq_true] at hmfa
      simp [login, hrate, hsusp, hemail, hlook, hlock, hverify, hmfa]
  · intro env2 c2 w hw hfa
    simp only [login] at hw
    split at hw
    · simp at hw
    · split at hw
      · simp at hw
      · split at hw
        · simp at hw
        · split at hw
          · simp at hw
          · rename_i u2 heq
            split at hw
            · simp at hw
            · split at hw
              · rename_i hv
                simp at hw
                subst hw
                simp at hfa
              · rename_i hv
                simp only [Bool.not_eq_false] at hv
                exact ⟨u2, heq, hv⟩
  · intro u2 s url; rfl
  · intro u2 pw code vf totp
    unfold disableMFA
    split_ifs <;> rfl
  · intro u2 cur np code vf totp nh
    unfold changePassword
    dsimp only
    split_ifs <;> rfl

/-- C2 witness: the reset property applied to `sampleUser` (three failed
attempts on record) logging in with the correct password. -/
theorem login_failed_attempts_reset_witness :
    sampleEnv.rateAllowed = true ∧ sampleEnv.suspicious = false
    ∧ validateEmail (sanitizeInput sampleCreds.email) = []
    ∧ sampleEnv.lookup (sanitizeInput sampleCreds.email) = some sampleUser
    ∧ lockActive sampleUser sampleEnv.now = false
    ∧ sampleEnv.verify sampleUser.passwordHash (sanitizeInput sampleCreds.password) = true
    ∧ (login sampleEnv sampleCreds).dbWrites =
        [{ sampleUser with failedAttempts := 0, lockedUntil := none }] :=
  ⟨by decide, by decide, by decide, by decide, by decide, by decide,
   (login_failed_attempts_reset sampleEnv sampleCreds sampleUser
     (by decide) (by decide) (by decide) (by decide) (by decide) (by decide)).1⟩

/-- C6: after the shared gates, a login with an unknown email and a login
with a known email but wrong password (account not locked) produce the
same HTTP response — 401 with the generic invalid-credentials body —
while their audit trails carry the two distinct reasons. -/
theorem login_error_indistinguishability (env : LoginEnv) (c1 c2 : Creds) (u : User)
    (hrate : env.rateAllowed = true) (hsusp : env.suspicious = false)
    (he1 : validateEmail (sanitizeInput c1.email) = [])
    (he2 : validateEmail (sanitizeInput c2.email) = [])
    (hl1 : env.lookup (sanitizeInput c1.email) = none)
    (hl2 : env.lookup (sanitizeInput c2.email) = some u)
    (hlock : lockActive u env.now = false)
    (hpw : env.verify u.passwordHash (sanitizeInput c2.password) = false) :
    (login env c1).resp = (login env c2).resp
    ∧ (login env c1).resp = ⟨401, .err "Invalid credentials"⟩
    ∧ (login env c1).audit.map AuditEntry.reason = ["User not found"]
    ∧ (login env c2).audit.map AuditEntry.reason = ["Invalid password"]
    ∧ ("User not found" : String) ≠ "Invalid password" := by
  refine ⟨?_, ?_, ?_, ?_, by decide⟩
  · simp [login, hrate, hsusp, he1, he2, hl1, hl2, hlock, hpw]
  · simp [login, hrate, hsusp, he1, hl1]
  · simp [login, hrate, hsusp, he1, hl1]
  · simp [login, hrate, hsusp, he2, hl2, hlock, hpw]

/-- C6 witness: unknown email versus `sampleUser` with a wrong password. -/
theorem login_error_indistinguishability_witness :
    sampleEnv.rateAllowed = true ∧ sampleEnv.suspicious = false
    ∧ validateEmail (sanitizeInput enumCreds.email) = []
    ∧ validateEmail (sanitizeInput wrongCreds.email) = []
    ∧ sampleEnv.lookup (sanitizeInput enumCreds.email) = none
    ∧ sampleEnv.lookup (sanitizeInput wrongCreds.email) = some sampleUser
    ∧ lockActive sampleUser sampleEnv.now = false
    ∧ sampleEnv.verify sampleUser.passwordHash (sanitizeInput wrongCreds.password) = false
    ∧ (login sampleEnv enumCreds).resp = (login sampleEnv wrongCreds).resp :=
  ⟨by decide, by decide, by decide, by decide, by decide, by decide, by decide, by decide,
   (login_error_indistinguishability sampleEnv enumCreds wrongCreds sampleUser
     (by decide) (by decide) (by decide) (by decide) (by decide) (by decide)
     (by decide) (by decide)).1⟩

/-- C7: for an MFA-enabled principal whose password verified, an empty
MFA code yields 401 with the distinct body message `MFA required`, and a
non-empty code failing TOTP yields 401 audited as `LoginMFAFailed`. -/
theorem login_mfa_required_distinct (env : LoginEnv) (c : Creds) (u : User)
    (hrate : env.rateAllowed = true) (hsusp : env.suspicious = false)
    (hemail : validateEmail (sanitizeInput c.email) = [])
    (hlook : env.lookup (sanitizeInput c.email) = some u)
    (hlock : lockActive u env.now = false)
    (hverify : env.verify u.passwordHash (sanitizeInput c.password) = true)
    (hmfa : u.mfaEnabled = true) :
    (sanitizeInput c.mfaCode = [] →
      (login env c).resp = ⟨401, .msg "MFA required"⟩
      ∧ ("MFA required" : String) ≠ "Invalid credentials")
    ∧ (sanitizeInput c.mfaCode ≠ [] →
        env.totpOk (sanitizeInput c.mfaCode) u.mfaSecret = false →
      (login env c).resp.status = 401
      ∧ (login env c).audit = [⟨.loginMFAFailed, "Invalid MFA code"⟩]) := by
  constructor
  · intro hcode
    refine ⟨?_, by decide⟩
    simp [login, hrate, hsusp, hemail, hlook, hlock, hverify, hmfa, hcode]
  · intro hcode htotp
    constructor
    · simp [login, hrate, hsusp, hemail, hlook, hlock, hverify, hmfa, hcode, htotp]
    · simp [login, hrate, hsusp, hemail, hlook, hlock, hverify, hmfa, hcode, htotp]

/-- C7 witness: `mfaUser` logging in with the correct password and no
MFA code. -/
theorem login_mfa_required_distinct_witness :
    mfaEnv.rateAllowed = true ∧ mfaEnv.suspicious = false
    ∧ validateEmail (sanitizeInput mfaCreds.email) = []
    ∧ mfaEnv.lookup (sanitizeInput mfaCreds.email) = some mfaUser
    ∧ lockActive mfaUser mfaEnv.now = false
    ∧ mfaEnv.verify mfaUser.passwordHash (sanitizeInput mfaCreds.password) = true
    ∧ mfaUser.mfaEnabled = true
    ∧ (sanitizeInput mfaCreds.mfaCode = [] →
        (login mfaEnv mfaCreds).resp = ⟨401, .msg "MFA required"⟩
        ∧ ("MFA required" : String) ≠ "Invalid credentials") :=
  ⟨by decide, by decide, by decide, by decide, by decide, by decide, by decide,
   (login_mfa_required_distinct mfaEnv mfaCreds mfaUser
     (by decide) (by decide) (by decide) (by decide) (by decide) (by decide)
     (by decide)).1⟩

/-- A successful `lookupTok` result is a binding present in the table. -/
theorem lookupTok_mem (m : CSRFMap) (t : String) (e : CSRFEntry)
    (h : lookupTok m t = some e) : (t, e) ∈ m := by
  unfold lookupTok at h
  cases hf : m.find? (fun p => p.1 = t) with
  | none => rw [hf] at h; exact absurd h (by simp)
  | some p =>
    rw [hf] at h
    simp only [Option.some.injEq] at h
    have hp := List.find?_some hf
    have hm := List.mem_of_find?_eq_some hf
    simp only [decide_eq_true_eq] at hp
    cases p with
    | mk a b =>
      simp only at hp
      simp only at h
      subst hp; subst h; exact hm

/-- Erasure only removes bindings. -/
theorem mem_eraseTok (m : CSRFMap) (t t' : String) (e : CSRFEntry)
    (h : (t, e) ∈ eraseTok m t') : (t, e) ∈ m :=
  List.mem_of_mem_filter h

/-- Storing under a different key leaves the bindings of `t` a subset of
what they were. -/
theorem mem_setTok_ne (m : CSRFMap) (t t' : String) (v e : CSRFEntry)
    (hne : t ≠ t') (h : (t, e) ∈ setTok m t' v) : (t, e) ∈ m := by
  unfold setTok at h
  rcases List.mem_cons.mp h with heq | hmem
  · exact absurd (congrArg Prod.fst heq) hne
  · exact mem_eraseTok m t t' e hmem

/-- A validation that succeeds leaves its token consumed. -/
theorem validate_true_consumed (m : CSRFMap) (t : String) (now : Nat)
    (h : (validateToken t now m).1 = true) :
    tokenConsumed (validateToken t now m).2 t := by
  by_cases h0 : t = ""
  · simp [validateToken, h0] at h
  · cases hl : lookupTok m t with
    | none => simp [validateToken, h0, hl] at h
    | some e =>
      by_cases hexp : e.expiresAt < now
      · simp [validateToken, h0, hl, hexp] at h
      · by_cases hused : e.used = true
        · simp [validateToken, h0, hl, hexp, hused] at h
        · simp only [validateToken, h0, hl, if_neg h0, if_neg hexp, if_neg hused]
          intro e' he'
          simp only [setTok] at he'
          rcases List.mem_cons.mp he' with heq' | hmem
          · have he2 : e' = { e with used := true } := (Prod.mk.injEq _ _ _ _).mp heq' |>.2
            rw [he2]
          · have hne := (List.mem_filter.mp hmem).2
            simp at hne

/-- Validation of a consumed token fails at every time. -/
theorem consumed_validate_false (m : CSRFMap) (t : String) (now : Nat)
    (h : tokenConsumed m t) : (validateToken t now m).1 = false := by
  unfold validateToken
  split
  · rfl
  · cases hl : lookupTok m t with
    | none => simp [hl]
    | some e =>
      have hu := h e (lookupTok_mem m t e hl)
      simp only [hl, hu]
      split <;> rfl

/-- Any table operation other than regenerating the same token value
keeps a consumed token consumed. -/
theorem consumed_step (m : CSRFMap) (t : String) (op : CSRFOp)
    (h : tokenConsumed m t) (hop : generatesTok t op = false) :
    tokenConsumed (applyCSRFOp m op) t := by
  cases op with
  | validate t' now =>
    simp only [applyCSRFOp]
    unfold validateToken
    split
    · exact h
    · cases hl : lookupTok m t' with
      | none => simp only [hl]; exact h
      | some e =>
        simp only [hl]
        split
        · intro e' he'; exact h e' (mem_eraseTok m t t' e' he')
        · split
          · exact h
          · rename_i hnotused
            by_cases hte : t = t'
            · subst hte
              have hu := h e (lookupTok_mem m t e hl)
              exact absurd hu hnotused
            · intro e' he'
              exact h e' (mem_setTok_ne m t t' _ e' hte he')
  | cleanup now =>
    intro e' he'
    exact h e' (List.mem_of_mem_filter he')
  | generate t' now =>
    simp only [generatesTok] at hop
    have hne : t ≠ t' := by
      intro hc; subst hc; simp at hop
    intro e' he'
    exact h e' (mem_setTok_ne m t t' _ e' hne he')

/-- A consumed token stays consumed under any sequence of operations that
never regenerates it. -/
theorem consumed_steps (t : String) (ops : List CSRFOp) :
    ∀ m : CSRFMap, tokenConsumed m t →
      (∀ op ∈ ops, generatesTok t op = false) →
      tokenConsumed (applyCSRFOps m ops) t := by
  induction ops with
  | nil => intro m h _; exact h
  | cons op rest ih =>
    intro m h hops
    have h1 := consumed_step m t op h (hops op (List.mem_cons_self op rest))
    exact ih _ h1 (fun o ho => hops o (List.mem_cons_of_mem op ho))

/-- C3: once `ValidateToken` has accepted a token, every later validation
of the same token value — immediately after, after further validations or
cleanup sweeps, and in particular after its expiry — returns false, as
long as the same random value is not generated anew. -/
theorem csrf_token_single_use (m : CSRFMap) (t : String) (now : Nat) (ops : List CSRFOp)
    (hval : (validateToken t now m).1 = true)
    (hops : ops.all (fun op => !generatesTok t op) = true) :
    ∀ now2 : Nat,
      (validateToken t now2 (applyCSRFOps (validateToken t now m).2 ops)).1 = false := by
  intro now2
  have h1 := validate_true_consumed m t now hval
  have hops' : ∀ op ∈ ops, generatesTok t op = false := by
    intro op hop
    have h2 := List.all_eq_true.mp hops op hop
    simpa using h2
  exact consumed_validate_false _ t now2 (consumed_steps t ops _ h1 hops')

/-- C3 witness: a token accepted at time 0 is rejected at time 200 after a
cleanup sweep, an unrelated validation, and an unrelated generation. -/
theorem csrf_token_single_use_witness :
    (validateToken "tok" 0 [("tok", ⟨100, false⟩)]).1 = true
    ∧ ([CSRFOp.cleanup 50, CSRFOp.validate "other" 60, CSRFOp.generate "other2" 70].all
        (fun op => !generatesTok "tok" op) = true)
    ∧ (validateToken "tok" 200 (applyCSRFOps (validateToken "tok" 0 [("tok", ⟨100, false⟩)]).2
        [CSRFOp.cleanup 50, CSRFOp.validate "other" 60, CSRFOp.generate "other2" 70])).1 = false :=
  ⟨by decide, by decide, csrf_token_single_use _ _ _ _ (by decide) (by decide) 200⟩

/-- While all calls stay inside the window opened at `t0`, the counter
admits calls while the count is below the limit and then denies, never
storing a count above the limit. -/
theorem rlRun_steady (limit window t0 : Nat) :
    ∀ (ts : List Nat) (c : Nat), c ≤ limit →
      (∀ t ∈ ts, t ≤ t0 + window) →
      rlRun limit window ts (some ⟨c, t0⟩) =
        ((List.range ts.length).map (fun i => decide (c + i < limit)),
         some ⟨min (c + ts.length) limit, t0⟩) := by
  intro ts
  induction ts with
  | nil =>
    intro c hc _
    simp [rlRun, Nat.min_eq_left hc]
  | cons t rest ih =>
    intro c hc hin
    have ht : t ≤ t0 + window := hin t (List.mem_cons_self _ _)
    have hnr : ¬ (window < t - t0) := by omega
    have hrest : ∀ x ∈ rest, x ≤ t0 + window :=
      fun x hx => hin x (List.mem_cons_of_mem _ hx)
    by_cases hcl : limit ≤ c
    · simp only [rlRun, rlAllow, if_neg hnr, if_pos hcl]
      rw [ih c hc hrest]
      simp only [List.length_cons]
      rw [List.range_succ_eq_map, List.map_cons, List.map_map]
      refine congrArg₂ Prod.mk (congrArg₂ List.cons ?_ ?_) ?_
      · simp; omega
      · apply List.map_congr_left
        intro i _
        simp only [Function.comp]
        exact decide_eq_decide.mpr (by omega)
      · rw [Nat.min_eq_right (by omega), Nat.min_eq_right (by omega)]
    · simp only [rlRun, rlAllow, if_neg hnr, if_neg hcl]
      rw [ih (c + 1) (lt_of_not_ge hcl) hrest]
      simp only [List.length_cons]
      rw [List.range_succ_eq_map, List.map_cons, List.map_map]
      refine congrArg₂ Prod.mk (congrArg₂ List.cons ?_ ?_) ?_
      · simp; omega
      · apply List.map_congr_left
        intro i _
        simp only [Function.comp]
        exact decide_eq_decide.mpr (by omega)
      · have harith : c + 1 + rest.length = c + (rest.length + 1) := by omega
        rw [harith]

/-- C4: from an empty table, calls at `t0` and then within the window all
succeed until exactly `limit` have been admitted, the following calls in
the same window fail, the stored count never passes the limit and the
window start stays `t0`; and a call arriving after the window has elapsed
resets the entry to count 1 with a fresh window start and is admitted. -/
theorem rate_limiter_fixed_window (limit window t0 : Nat) (ts : List Nat)
    (hpos : 0 < limit) (hin : ∀ t ∈ ts, t ≤ t0 + window)
    (cc st now : Nat) (hreset : window < now - st) :
    (rlRun limit window (t0 :: ts) none).1 =
      (List.range (ts.length + 1)).map (fun i => decide (i < limit))
    ∧ (rlRun limit window (t0 :: ts) none).2 = some ⟨min (ts.length + 1) limit, t0⟩
    ∧ rlAllow limit window now (some ⟨cc, st⟩) = (true, some ⟨1, now⟩) := by
  have hstep : rlRun limit window (t0 :: ts) none =
      ((rlAllow limit window t0 none).1 ::
        (rlRun limit window ts (rlAllow limit window t0 none).2).1,
       (rlRun limit window ts (rlAllow limit window t0 none).2).2) := rfl
  have hfirst : rlAllow limit window t0 none = (true, some ⟨1, t0⟩) := rfl
  have hrun := rlRun_steady limit window t0 ts 1 hpos hin
  refine ⟨?_, ?_, ?_⟩
  · rw [hstep, hfirst]
    simp only [hrun]
    rw [List.range_succ_eq_map, List.map_cons, List.map_map]
    refine congrArg₂ List.cons ?_ ?_
    · simp [hpos]
    · apply List.map_congr_left
      intro i _
      simp only [Function.comp]
      exact decide_eq_decide.mpr (by omega)
  · rw [hstep, hfirst]
    simp only [hrun]
    rw [Nat.add_comm 1 ts.length]
  · simp [rlAllow, hreset]

/-- C4 witness: limit 2, window 10, calls at times 0, 1, 2, 3, then a
reset observed on an entry whose window has elapsed. -/
theorem rate_limiter_fixed_window_witness :
    0 < 2 ∧ (∀ t ∈ [1, 2, 3], t ≤ 0 + 10) ∧ 10 < 11 - 0
    ∧ ((rlRun 2 10 [0, 1, 2, 3] none).1 =
        (List.range ([1, 2, 3].length + 1)).map (fun i => decide (i < 2))
      ∧ (rlRun 2 10 [0, 1, 2, 3] none).2 = some ⟨min ([1, 2, 3].length + 1) 2, 0⟩
      ∧ rlAllow 2 10 11 (some ⟨2, 0⟩) = (true, some ⟨1, 11⟩)) :=
  ⟨by decide, by decide, by decide,
   rate_limiter_fixed_window 2 10 0 [1, 2, 3] (by decide) (by decide) 2 0 11 (by decide)⟩

/-- C5: verifying an access token against the access secret recovers the
issuing principal as subject while the token is fresh; access verification
rejects a token signed with the refresh secret and refresh-side
verification rejects a token signed with the access secret, although both
tokens carry the same claim shape with the same subject. -/
theorem token_issue_verify_round_trip (jwtSecret refreshSecret userID : String)
    (now now2 : Nat) (hdist : jwtSecret ≠ refreshSecret)
    (hfresh : now2 < now + 15 * 60) :
    authenticate jwtSecret now2 (generateAccessToken jwtSecret userID now) = some userID
    ∧ authenticate jwtSecret now2 (generateRefreshToken refreshSecret userID now) = none
    ∧ jwtParseHMAC refreshSecret now2 (generateAccessToken jwtSecret userID now) = none
    ∧ (generateAccessToken jwtSecret userID now).claims.sub =
        (generateRefreshToken refreshSecret userID now).claims.sub := by
  have hexp : ¬ (now + 15 * 60 ≤ now2) := by omega
  refine ⟨?_, ?_, ?_, rfl⟩
  · simp [authenticate, jwtParseHMAC, generateAccessToken, signHS, hexp]
  · simp [authenticate, jwtParseHMAC, generateRefreshToken, signHS, Prod.ext_iff]
    intro h
    exact absurd h.symm hdist
  · simp [jwtParseHMAC, generateAccessToken, signHS, Prod.ext_iff]
    intro h
    exact absurd h hdist

/-- C5 witness: secrets `a` and `b`, principal `u1`, issued at time 0 and
verified at time 100. -/
theorem token_issue_verify_round_trip_witness :
    ("a" : String) ≠ "b" ∧ (100 : Nat) < 0 + 15 * 60
    ∧ authenticate "a" 100 (generateAccessToken "a" "u1" 0) = some "u1"
    ∧ authenticate "a" 100 (generateRefreshToken "b" "u1" 0) = none
    ∧ jwtParseHMAC "b" 100 (generateAccessToken "a" "u1" 0) = none :=
  ⟨by decide, by decide,
   (token_issue_verify_round_trip "a" "b" "u1" 0 100 (by decide) (by decide)).1,
   (token_issue_verify_round_trip "a" "b" "u1" 0 100 (by decide) (by decide)).2.1,
   (token_issue_verify_round_trip "a" "b" "u1" 0 100 (by decide) (by decide)).2.2.1⟩

/-- C10: one `EnableMFA` call unconditionally stores the fresh secret,
sets the flag, and returns the secret with its provisioning URL — the
handler consults neither a password nor an MFA code; `DisableMFA` leaves
the row untouched unless the password verifies and the TOTP code
validates, and only then clears the secret and the flag. -/
theorem mfa_enable_without_proof_disable_requires_both (u : User) (s url : String)
    (pw code : Str) (verify : String → Str → Bool) (totpOk : Str → String → Bool) :
    enableMFA u s url =
      (⟨200, .mfaInfo "MFA enabled successfully" url s⟩,
       { u with mfaSecret := s, mfaEnabled := true })
    ∧ (verify u.passwordHash pw = false →
        disableMFA u pw code verify totpOk = (⟨401, .err "Invalid password"⟩, u))
    ∧ (verify u.passwordHash pw = true → totpOk code u.mfaSecret = false →
        disableMFA u pw code verify totpOk = (⟨401, .err "Invalid MFA code"⟩, u))
    ∧ (verify u.passwordHash pw = true → totpOk code u.mfaSecret = true →
        disableMFA u pw code verify totpOk =
          (⟨200, .msg "MFA disabled successfully"⟩,
           { u with mfaSecret := "", mfaEnabled := false })) := by
  refine ⟨rfl, ?_, ?_, ?_⟩
  · intro h1
    simp [disableMFA, h1]
  · intro h1 h2
    simp [disableMFA, h1, h2]
  · intro h1 h2
    simp [disableMFA, h1, h2]

/-- C10 witness: the MFA enrollment contract applied to `sampleUser` with
a concrete verifier pair that rejects the supplied password. -/
theorem mfa_enable_without_proof_disable_requires_both_witness :
    enableMFA sampleUser "NEWSECRET" "otpauth-url" =
      (⟨200, .mfaInfo "MFA enabled successfully" "otpauth-url" "NEWSECRET"⟩,
       { sampleUser with mfaSecret := "NEWSECRET", mfaEnabled := true })
    ∧ ((fun (_ : String) (_ : Str) => false) sampleUser.passwordHash [] = false →
        disableMFA sampleUser [] [] (fun _ _ => false) (fun _ _ => false) =
          (⟨401, .err "Invalid password"⟩, sampleUser)) :=
  ⟨(mfa_enable_without_proof_disable_requires_both sampleUser "NEWSECRET" "otpauth-url"
      [] [] (fun _ _ => false) (fun _ _ => false)).1,
   (mfa_enable_without_proof_disable_requires_both sampleUser "NEWSECRET" "otpauth-url"
      [] [] (fun _ _ => false) (fun _ _ => false)).2.1⟩

end SafeRelief

